import Mathlib

/-!
Verification development for the Finbrain browser frontend
(`src/app.js` and the unnamed API-utility file).

The JavaScript code is shallowly embedded: JS numbers are modelled as
`JSNumber` (NaN, plus/minus infinity, or an exact rational — IEEE-754
rounding of individual operations is not modelled), JS values reaching the
embedded code as `JSValue`, JSON documents as `JsonVal`.  DOM effects are
modelled as explicit state (a result panel is a content string plus a
visibility flag).  The network is a parameter: each handler takes the
`FetchOutcome` the backend produced for its single request.
-/

namespace Finbrain

/-- Model of a JavaScript number: NaN, the two infinities, or a finite value
represented exactly as a rational. -/
inductive JSNumber
  | nan
  | inf
  | negInf
  | fin (q : ℚ)
deriving DecidableEq

def JSNumber.isNaN : JSNumber → Bool
  | .nan => true
  | _ => false

/-- JS binary addition on numbers (after ToNumber coercion).  The finite
case is written with `mkRat` so that it evaluates by kernel reduction; it
equals `a + b` (lemma `numAdd_fin` below). -/
def numAdd : JSNumber → JSNumber → JSNumber
  | .nan, _ => .nan
  | _, .nan => .nan
  | .inf, .negInf => .nan
  | .negInf, .inf => .nan
  | .inf, _ => .inf
  | _, .inf => .inf
  | .negInf, _ => .negInf
  | _, .negInf => .negInf
  | .fin a, .fin b => .fin (mkRat (a.num * b.den + b.num * a.den) (a.den * b.den))

/-- JS unary negation on numbers. -/
def numNeg : JSNumber → JSNumber
  | .nan => .nan
  | .inf => .negInf
  | .negInf => .inf
  | .fin q => .fin (-q)

/-- JS binary subtraction on numbers. -/
def numSub (a b : JSNumber) : JSNumber := numAdd a (numNeg b)

/-- Model of `Math.abs`. -/
def numAbs : JSNumber → JSNumber
  | .nan => .nan
  | .inf => .inf
  | .negInf => .inf
  | .fin q => .fin (if q < 0 then -q else q)

/-- JS strict greater-than on numbers; any comparison with NaN is false. -/
def numGt : JSNumber → JSNumber → Bool
  | .nan, _ => false
  | _, .nan => false
  | .inf, .inf => false
  | .inf, _ => true
  | _, .inf => false
  | .negInf, .negInf => false
  | .negInf, _ => false
  | _, .negInf => true
  | .fin a, .fin b => decide (b < a)

/-! ### The ECMAScript string-to-number conversions

`jsStringToNumber` models `ToNumber` applied to a string (the coercion used
by the global `isNaN`), and `parseFloatJS` models `parseFloat`.  Both follow
the ECMAScript grammar: `ToNumber` requires the whole (whitespace-trimmed)
string to be a numeric literal (decimal, or unsigned `0x`/`0o`/`0b`),
while `parseFloat` converts the longest decimal-literal prefix after
leading whitespace and never accepts radix prefixes. -/

/-- ECMAScript whitespace (the code points relevant to trimming). -/
def isJsWhitespace (c : Char) : Bool :=
  c.toNat = 32 || c.toNat = 9 || c.toNat = 10 || c.toNat = 13 ||
  c.toNat = 11 || c.toNat = 12 || c.toNat = 160 || c.toNat = 0xfeff ||
  c.toNat = 0x2028 || c.toNat = 0x2029 || c.toNat = 0x3000

def isDecDigit (c : Char) : Bool := 48 ≤ c.toNat && c.toNat ≤ 57

def decDigitVal (c : Char) : ℕ := c.toNat - 48

def isHexDigit (c : Char) : Bool :=
  isDecDigit c || (97 ≤ c.toNat && c.toNat ≤ 102) || (65 ≤ c.toNat && c.toNat ≤ 70)

def hexDigitVal (c : Char) : ℕ :=
  if isDecDigit c then decDigitVal c
  else if 97 ≤ c.toNat then c.toNat - 87
  else c.toNat - 55

def isOctDigit (c : Char) : Bool := 48 ≤ c.toNat && c.toNat ≤ 55

def isBinDigit (c : Char) : Bool := c.toNat = 48 || c.toNat = 49

/-- Value of a digit string in the given base. -/
def digitsVal (base : ℕ) (dv : Char → ℕ) (ds : List Char) : ℕ :=
  ds.foldl (fun a c => base * a + dv c) 0

/-- Does `p` occur at the start of `l`? -/
def listStartsWith : List Char → List Char → Bool
  | [], _ => true
  | _ :: _, [] => false
  | a :: ps, b :: ls => a == b && listStartsWith ps ls

/-- Parse the longest prefix of `cs` matching the (unsigned) ECMAScript
decimal-literal grammar `digits [. digits] [e sign digits]` /
`. digits [e sign digits]`; returns its rational value and the rest.
An exponent marker not followed by at least one digit is not consumed. -/
def parseDecimal (cs : List Char) : Option (ℚ × List Char) :=
  let intDs := cs.takeWhile isDecDigit
  let r1 := cs.dropWhile isDecDigit
  let fr :=
    match r1 with
    | d :: rest =>
      if d = '.' then (rest.takeWhile isDecDigit, rest.dropWhile isDecDigit)
      else ([], r1)
    | [] => ([], r1)
  let fracDs := fr.1
  let r2 := fr.2
  if intDs.isEmpty && fracDs.isEmpty then none
  else
    let mantissa : ℕ :=
      digitsVal 10 decDigitVal intDs * 10 ^ fracDs.length +
        digitsVal 10 decDigitVal fracDs
    let ex :=
      match r2 with
      | e :: rest =>
        if e = 'e' ∨ e = 'E' then
          let sg :=
            match rest with
            | c :: t =>
              if c = '+' then ((1 : ℤ), t)
              else if c = '-' then ((-1 : ℤ), t)
              else ((1 : ℤ), rest)
            | [] => ((1 : ℤ), rest)
          let eds := sg.2.takeWhile isDecDigit
          if eds.isEmpty then ((0 : ℤ), r2)
          else (sg.1 * (digitsVal 10 decDigitVal eds : ℤ), sg.2.dropWhile isDecDigit)
        else ((0 : ℤ), r2)
      | [] => ((0 : ℤ), r2)
    let net : ℤ := ex.1 - fracDs.length
    let q : ℚ :=
      if 0 ≤ net then mkRat (mantissa * 10 ^ net.toNat) 1
      else mkRat mantissa (10 ^ (-net).toNat)
    some (q, ex.2)

/-- Parse an optional sign followed by `Infinity` or a decimal literal
(the `StrDecimalLiteral` grammar); longest-prefix semantics. -/
def parseSignedMain (cs : List Char) : Option (JSNumber × List Char) :=
  let sg :=
    match cs with
    | c :: t =>
      if c = '+' then (false, t)
      else if c = '-' then (true, t)
      else (false, cs)
    | [] => (false, cs)
  let neg := sg.1
  let rest := sg.2
  if listStartsWith "Infinity".toList rest then
    some (if neg then .negInf else .inf, rest.drop 8)
  else
    match parseDecimal rest with
    | some (q, r) => some (.fin (if neg then -q else q), r)
    | none => none

/-- Model of `parseFloat(s)`: skip leading whitespace, convert the longest
decimal-literal prefix, NaN when there is none. -/
def parseFloatJS (s : String) : JSNumber :=
  match parseSignedMain (s.toList.dropWhile isJsWhitespace) with
  | some (n, _) => n
  | none => .nan

/-- A radix-prefixed (`0x`/`0o`/`0b`) integer literal followed by at most
trailing whitespace; `none` when `cs` does not start with a radix prefix. -/
def radixParse (cs : List Char) : Option JSNumber :=
  match cs with
  | c0 :: c1 :: rest =>
    if c0 = '0' ∧ (c1 = 'x' ∨ c1 = 'X') then
      let ds := rest.takeWhile isHexDigit
      some (if !ds.isEmpty && (rest.dropWhile isHexDigit).all isJsWhitespace
        then .fin (mkRat (digitsVal 16 hexDigitVal ds) 1) else .nan)
    else if c0 = '0' ∧ (c1 = 'o' ∨ c1 = 'O') then
      let ds := rest.takeWhile isOctDigit
      some (if !ds.isEmpty && (rest.dropWhile isOctDigit).all isJsWhitespace
        then .fin (mkRat (digitsVal 8 decDigitVal ds) 1) else .nan)
    else if c0 = '0' ∧ (c1 = 'b' ∨ c1 = 'B') then
      let ds := rest.takeWhile isBinDigit
      some (if !ds.isEmpty && (rest.dropWhile isBinDigit).all isJsWhitespace
        then .fin (mkRat (digitsVal 2 decDigitVal ds) 1) else .nan)
    else none
  | _ => none

/-- Model of `ToNumber` on a string (what the global `isNaN(value)` coerces with):
the empty / all-whitespace string is `0`; otherwise the whole trimmed
string must be one numeric literal. -/
def jsStringToNumber (s : String) : JSNumber :=
  match s.toList.dropWhile isJsWhitespace with
  | [] => .fin 0
  | c :: rest =>
    match radixParse (c :: rest) with
    | some n => n
    | none =>
      match parseSignedMain (c :: rest) with
      | some (n, r) => if r.all isJsWhitespace then n else .nan
      | none => .nan

/-! ### JS values -/

/-- The JS values the embedded code manipulates.  `object` is an opaque
marker for object-valued data (its numeric coercion is approximated as NaN;
no verified claim exercises objects in primitive positions). -/
inductive JSValue
  | undefVal
  | null
  | num (n : JSNumber)
  | bool (b : Bool)
  | str (s : String)
  | object
deriving DecidableEq

/-- Model of `ToNumber` on a JS value. -/
def toNumber : JSValue → JSNumber
  | .undefVal => .nan
  | .null => .fin 0
  | .num n => n
  | .bool b => .fin (if b then 1 else 0)
  | .str s => jsStringToNumber s
  | .object => .nan

/-- Rendering of a JS number as a string.  Exact for NaN, the infinities
and integers; non-integer rationals are rendered approximately (no claim
exercises that corner). -/
def numToString : JSNumber → String
  | .nan => "NaN"
  | .inf => "Infinity"
  | .negInf => "-Infinity"
  | .fin q => if q.den = 1 then toString q.num else toString q

/-- Model of `ToString` on a JS value. -/
def jsToString : JSValue → String
  | .undefVal => "undefined"
  | .null => "null"
  | .num n => numToString n
  | .bool true => "true"
  | .bool false => "false"
  | .str s => s
  | .object => "[object Object]"

def JSValue.isStr : JSValue → Bool
  | .str _ => true
  | _ => false

/-- JS binary `+`: string concatenation when either operand is a string,
numeric addition otherwise (the operands the embedded code adds are
already primitive). -/
def jsAdd (a b : JSValue) : JSValue :=
  if a.isStr || b.isStr then .str (jsToString a ++ jsToString b)
  else .num (numAdd (toNumber a) (toNumber b))

/-! ### APIUtils formatting helpers

`formatCurrency`, `formatPercentage` and `formatNumber` first test
`typeof amount !== 'number'` and return `"N/A"` for every non-number.
The formatted output for numbers models `Intl.NumberFormat('zh-TW', ...)`
respectively `Number.prototype.toFixed`: digits, `,` grouping, an optional
sign/`$`/`%`/decimal point (the locale details such as the exact currency
symbol are approximate; no claim depends on them). -/

/-- The character for a decimal digit value (values `≥ 9` all render as
`9`; the renderer only ever passes values `< 10`). -/
def digitChar (n : ℕ) : Char :=
  if n = 0 then '0' else if n = 1 then '1' else if n = 2 then '2'
  else if n = 3 then '3' else if n = 4 then '4' else if n = 5 then '5'
  else if n = 6 then '6' else if n = 7 then '7' else if n = 8 then '8'
  else '9'

/-- Decimal digits of `n`, most significant first (fuel-driven recursion;
the fuel `n + 1` always suffices). -/
def natDigitsAux : ℕ → ℕ → List Char
  | 0, _ => []
  | fuel + 1, n =>
    if n < 10 then [digitChar n]
    else natDigitsAux fuel (n / 10) ++ [digitChar (n % 10)]

def natDigits (n : ℕ) : List Char := natDigitsAux (n + 1) n

/-- Insert a thousands separator: the input is the digit list reversed
(least significant first), `k` counts digits since the last separator. -/
def group3Rev : List Char → ℕ → List Char
  | [], _ => []
  | c :: rest, k =>
    if rest.isEmpty then [c]
    else if k = 2 then c :: ',' :: group3Rev rest 0
    else c :: group3Rev rest (k + 1)

/-- Decimal digits of `n` with `,` grouping, most significant first. -/
def groupedNat (n : ℕ) : List Char := (group3Rev (natDigits n).reverse 0).reverse

/-- The value `⌊(n * 10 ^ p) / d + 1/2⌋` over naturals: the rounding used for a
nonnegative magnitude `n / d` rendered with `p` fraction digits
(half-up, which on a nonnegative magnitude is also half-away-from-zero). -/
def roundHalfUpNat (n d p : ℕ) : ℕ := (2 * (n * 10 ^ p) + d) / (2 * d)

/-- Digits of the rounded scaled magnitude `m`, split into integer part
(grouped when `grouped` is set) and `p` fraction digits. -/
def fixedChars (m : ℕ) (p : ℕ) (grouped : Bool) : List Char :=
  let ip := m / 10 ^ p
  let fp := m % 10 ^ p
  let fpDigits := natDigits fp
  let ipChars := if grouped then groupedNat ip else natDigits ip
  ipChars ++
    (if p = 0 then []
     else '.' :: (List.replicate (p - fpDigits.length) '0' ++ fpDigits))

/-- The characters of `value.toFixed(decimals)`. -/
def toFixedChars (n : JSNumber) (decimals : ℕ) : List Char :=
  match n with
  | .nan => ['N', 'a', 'N']
  | .inf => "Infinity".toList
  | .negInf => '-' :: "Infinity".toList
  | .fin q =>
    (if q < 0 then ['-'] else []) ++
      fixedChars (roundHalfUpNat q.num.natAbs q.den decimals) decimals false

/-- Model of `APIUtils.formatCurrency`: `'N/A'` unless the input is a number,
otherwise the zh-TW TWD currency rendering with zero fraction digits. -/
def formatCurrency (amount : JSValue) : String :=
  match amount with
  | .num .nan => String.mk ('$' :: ['N', 'a', 'N'])
  | .num .inf => String.mk ('$' :: ['∞'])
  | .num .negInf => String.mk ('-' :: '$' :: ['∞'])
  | .num (.fin q) =>
    String.mk ((if q < 0 then ['-'] else []) ++
      '$' :: groupedNat (roundHalfUpNat q.num.natAbs q.den 0))
  | _ => "N/A"

/-- Model of `APIUtils.formatPercentage`: `'N/A'` unless the input is a number,
otherwise `value.toFixed(decimals) + '%'`. -/
def formatPercentage (value : JSValue) (decimals : ℕ) : String :=
  match value with
  | .num n => String.mk (toFixedChars n decimals ++ ['%'])
  | _ => "N/A"

/-- Model of `APIUtils.formatNumber`: `'N/A'` unless the input is a number,
otherwise the zh-TW grouped rendering with exactly `decimals` digits. -/
def formatNumber (value : JSValue) (decimals : ℕ) : String :=
  match value with
  | .num .nan => String.mk ['N', 'a', 'N']
  | .num .inf => String.mk ['∞']
  | .num .negInf => String.mk ['-', '∞']
  | .num (.fin q) =>
    String.mk ((if q < 0 then ['-'] else []) ++
      fixedChars (roundHalfUpNat q.num.natAbs q.den decimals) decimals true)
  | _ => "N/A"

/-! ### APIUtils.formDataToObject and validateFormData -/

/-- The per-field coercion inside `APIUtils.formDataToObject`.  `FormData`
field values are strings, so the `value === null` half of the first test
never fires and is subsumed by the `=== ''` comparison. -/
def coerceField (value : String) : JSValue :=
  if value = "" then .null
  else if !(jsStringToNumber value).isNaN && value ≠ "" then .num (parseFloatJS value)
  else if value = "true" then .bool true
  else if value = "false" then .bool false
  else .str value

/-- Model of `APIUtils.formDataToObject`: coerce every submitted `(key, value)`
entry.  The resulting plain object is read through `objGet`, which takes
the last binding of a key (later assignments overwrite). -/
def formDataToObject (entries : List (String × String)) : List (String × JSValue) :=
  entries.map fun kv => (kv.1, coerceField kv.2)

/-- Property read `obj[key]` on the assoc-list object model: the last
binding wins, a missing key is `undefined`. -/
def objGet (obj : List (String × JSValue)) (key : String) : JSValue :=
  obj.foldl (fun acc kv => if kv.1 = key then kv.2 else acc) .undefVal

/-- Model of `APIUtils.validateFormData`: one error message, in order, for every
required field whose value is `undefined`, `null` or `''`. -/
def validateFormData (data : String → JSValue) (requiredFields : List String) : List String :=
  requiredFields.foldl
    (fun errors field =>
      if data field = .undefVal ∨ data field = .null ∨ data field = .str "" then
        errors ++ [field ++ " 為必填欄位"]
      else errors)
    []

/-- The missing-field test of `validateFormData`, as a Boolean. -/
def requiredMissing (v : JSValue) : Bool :=
  decide (v = .undefVal ∨ v = .null ∨ v = .str "")

/-! ### JSON documents and the API client -/

/-- A parsed JSON document. -/
inductive JsonVal
  | jnull
  | jbool (b : Bool)
  | jnum (q : ℚ)
  | jstr (s : String)
  | jarr (elems : List JsonVal)
  | jobj (fields : List (String × JsonVal))

/-- Field lookup in a JSON object (later duplicate keys win, as in JS). -/
def jsonField (fields : List (String × JsonVal)) (key : String) : Option JsonVal :=
  fields.foldl (fun acc kv => if kv.1 = key then some kv.2 else acc) none

/-- Lookup `errorData?.detail`: the `detail` member of a parsed error body, when
the body is an object that has one. -/
def detailOf : JsonVal → Option JsonVal
  | .jobj fields => jsonField fields "detail"
  | _ => none

/-- JS truthiness of a JSON value (objects and arrays are always truthy). -/
def jsonTruthy : JsonVal → Bool
  | .jnull => false
  | .jbool b => b
  | .jnum q => decide (q ≠ 0)
  | .jstr s => decide (s ≠ "")
  | .jarr _ => true
  | .jobj _ => true

/-- The string a JSON value turns into when passed to `new Error(...)`.
Strings pass through unchanged; numbers reuse `numToString`; array
rendering is approximated (no claim exercises non-string details). -/
def jsonMsgString : JsonVal → String
  | .jnull => "null"
  | .jbool true => "true"
  | .jbool false => "false"
  | .jnum q => numToString (.fin q)
  | .jstr s => s
  | .jarr _ => ""
  | .jobj _ => "[object Object]"

/-- The fallback error message `HTTP ${response.status}: ${response.statusText}`. -/
def httpFallback (status : ℕ) (statusText : String) : String :=
  "HTTP " ++ toString status ++ ": " ++ statusText

/-- An HTTP response as `fetch` presents it to `InvestmentAPI.call`:
status, status text, and the result of `response.json()` on the body
(`none` when the body is not parseable JSON). -/
structure Response where
  status : ℕ
  statusText : String
  jsonBody : Option JsonVal

/-- Model of `response.ok` per the Fetch standard: status in the range 200–299. -/
def Response.ok (r : Response) : Bool := 200 ≤ r.status && r.status < 300

/-- What the single `fetch` of a call produced: a network-level failure
(rejected promise) or an HTTP response. -/
inductive FetchOutcome
  | networkError (msg : String)
  | response (r : Response)

/-- The error message built on a non-ok response:
`errorData?.detail || 'HTTP status: statusText'` — the parsed body's
`detail` when it exists and is truthy, the HTTP fallback otherwise. -/
def errorMessage (r : Response) : String :=
  match r.jsonBody with
  | none => httpFallback r.status r.statusText
  | some j =>
    match detailOf j with
    | none => httpFallback r.status r.statusText
    | some d => if jsonTruthy d then jsonMsgString d else httpFallback r.status r.statusText

/-- Model of the `config.body` construction: a body is attached only when a payload is
supplied and the method is not GET. -/
def requestBody {α : Type} (data : Option α) (method : String) : Option α :=
  match data with
  | some d => if method ≠ "GET" then some d else none
  | none => none

/-- Model of `InvestmentAPI.call(endpoint, data, method)`, parameterised by the
fetch outcome.  On an ok response the parsed JSON body is returned (an
unparsable ok body rejects with an engine-specific syntax error, rethrown
unchanged); on a non-ok response the call throws `errorMessage`; a network
failure is rethrown unchanged.  The `endpoint`, `data` and `method`
arguments shape only the request, never the result handling. -/
def callModel {α : Type} (endpoint : String) (data : Option α) (method : String)
    (outcome : FetchOutcome) : Except String JsonVal :=
  match outcome with
  | .networkError m => .error m
  | .response r =>
    if r.ok then
      match r.jsonBody with
      | some j => .ok j
      | none => .error "SyntaxError: unexpected end of JSON input"
    else .error (errorMessage r)

/-! ### Result panels and the tab controller -/

/-- A result container: its `innerHTML` and whether the `show` class is
present. -/
structure TabPanel where
  content : String
  shown : Bool
deriving DecidableEq

/-- The state `APIUtils.clearResult` leaves a container in: `show` class
removed, `innerHTML` emptied. -/
def clearedPanel : TabPanel := { content := "", shown := false }

/-- Model of `APIUtils.clearResult(containerId)` over a container map. -/
def clearResult (results : String → TabPanel) (containerId : String) : String → TabPanel :=
  fun cid => if cid = containerId then clearedPanel else results cid

/-- The pieces of DOM state the tab controller touches: the active-tab
field, the `active` class on the tab-content elements (keyed by tab id)
and the result containers (keyed by container element id). -/
structure UIState where
  currentTab : String
  contentActive : String → Bool
  results : String → TabPanel

/-- The click handler installed by `InvestmentApp.setupTabs` for the
button with `data-tab = tabId`: activate that tab's content, record it in
`currentTab`, and `clearResult` the container named `tabId + '-result'`
(note: the clicked tab's own container, not the previous tab's). -/
def clickTab (s : UIState) (tabId : String) : UIState :=
  { currentTab := tabId
    contentActive := fun t => t == tabId
    results := clearResult s.results (tabId ++ "-result") }

/-- The template of `APIUtils.showError`, exactly as interpolated. -/
def errorHtml (message : String) : String :=
  "\n            <div class=\"error\">\n                <strong>錯誤:</strong> " ++
    message ++ "\n            </div>\n        "

/-- The panel state `APIUtils.showError(container, message)` leaves a
container in. -/
def showError (message : String) : TabPanel := { content := errorHtml message, shown := true }

/-! ### The bond/deposit submission handler -/

/-- Property access `result.key` on a parsed JSON response. -/
def jsonGet (j : JsonVal) (key : String) : JSValue :=
  match j with
  | .jobj fields =>
    match jsonField fields key with
    | some .jnull => .null
    | some (.jbool b) => .bool b
    | some (.jnum q) => .num (.fin q)
    | some (.jstr s) => .str s
    | some (.jarr _) => .object
    | some (.jobj _) => .object
    | none => .undefVal
  | _ => .undefVal

/-- The class chosen by `v > 0 ? 'positive' : 'negative'`. -/
def posNegClass (v : JSValue) : String :=
  if numGt (toNumber v) (.fin 0) then "positive" else "negative"

/-- The `innerHTML` written by `InvestmentApp.displayBondResult`
(markup reproduced with the template's labels, classes and formatter
calls; indentation whitespace is not reproduced byte for byte). -/
def displayBondHtml (result : JsonVal) : String :=
  "<h3>計算結果</h3><div class=\"result-grid\">" ++
  "<div class=\"result-item\"><div class=\"label\">最終價值 (名目)</div><div class=\"value\">" ++
    formatCurrency (jsonGet result "final_value") ++ "</div></div>" ++
  "<div class=\"result-item\"><div class=\"label\">實質價值 (扣除通膨)</div><div class=\"value\">" ++
    formatCurrency (jsonGet result "real_value") ++ "</div></div>" ++
  "<div class=\"result-item\"><div class=\"label\">名目年化報酬率</div><div class=\"value positive\">" ++
    formatPercentage (jsonGet result "nominal_return") 2 ++ "</div></div>" ++
  "<div class=\"result-item\"><div class=\"label\">實質年化報酬率</div><div class=\"value " ++
    posNegClass (jsonGet result "real_return") ++ "\">" ++
    formatPercentage (jsonGet result "real_return") 2 ++ "</div></div>" ++
  "<div class=\"result-item\"><div class=\"label\">總利息收入</div><div class=\"value positive\">" ++
    formatCurrency (jsonGet result "total_interest") ++ "</div></div>" ++
  "<div class=\"result-item\"><div class=\"label\">通膨損失</div><div class=\"value negative\">" ++
    formatCurrency (jsonGet result "inflation_impact") ++ "</div></div>" ++
  "</div>"

/-- The request object a bond submission sends: the coerced form data with
the checkbox state folded in as `is_compound` (overwriting any coerced
value of that key). -/
def bondRequestData (fields : List (String × String)) (isCompoundChecked : Bool) :
    List (String × JSValue) :=
  formDataToObject fields ++ [("is_compound", .bool isCompoundChecked)]

/-- Model of `InvestmentApp.handleBondCalculation`: POST the request, then either
render the result through `displayBondResult` or show the failure's
message via `APIUtils.showError` in the `bond-result` container.  The
value is the final state of that container (the loading indicator, shown
on entry and hidden in `finally`, ends hidden either way). -/
def handleBond (fields : List (String × String)) (isCompoundChecked : Bool)
    (outcome : FetchOutcome) : TabPanel :=
  match callModel "/bond-deposit" (some (bondRequestData fields isCompoundChecked)) "POST" outcome with
  | .ok result => { content := displayBondHtml result, shown := true }
  | .error m => showError m

/-! ### The financial-goal submission handler -/

/-- The allocation total
`data.stock_allocation + data.bond_allocation + data.etf_allocation + data.deposit_allocation`
computed by `InvestmentApp.handleGoalCalculation` (JS `+`, left to right). -/
def goalTotal (fields : List (String × String)) : JSValue :=
  let data := formDataToObject fields
  jsAdd (jsAdd (jsAdd (objGet data "stock_allocation") (objGet data "bond_allocation"))
      (objGet data "etf_allocation"))
    (objGet data "deposit_allocation")

/-- The guard `Math.abs(total - 100) > 0.01` (`mkRat 1 100` is the
literal `0.01`). -/
def goalValidationFails (fields : List (String × String)) : Bool :=
  numGt (numAbs (numSub (toNumber (goalTotal fields)) (.fin 100))) (.fin (mkRat 1 100))

/-- The validation error message
`投資配置總和必須為100%，目前為${total}%`. -/
def goalErrMsg (total : JSValue) : String :=
  "投資配置總和必須為100%，目前為" ++ jsToString total ++ "%"

/-- Observable outcome of a goal submission: the local validation error
shown in the panel, an API failure shown in the panel, or a successful
result rendered by `displayGoalResult`. -/
inductive GoalStep
  | validationError (msg : String)
  | apiErrorShown (msg : String)
  | apiResultShown (result : JsonVal)

/-- Model of `InvestmentApp.handleGoalCalculation`: coerce the form, check the
allocation total, and only when the check passes POST to
`/financial-goal`.  Returns the observable step together with the endpoint
called (`none` when the submission never reached the API). -/
def handleGoal (fields : List (String × String)) (outcome : FetchOutcome) :
    GoalStep × Option String :=
  if goalValidationFails fields then
    (.validationError (goalErrMsg (goalTotal fields)), none)
  else
    match callModel "/financial-goal" (some (formDataToObject fields)) "POST" outcome with
    | .ok result => (.apiResultShown result, some "/financial-goal")
    | .error m => (.apiErrorShown m, some "/financial-goal")

/-! ### The coercion rule as the specification words it

The spec describes the numeric branch of `formDataToObject` as applying to
a raw string that "parses fully as a float".  The following two
definitions transcribe that rule so it can be compared with the code's
`coerceField` above (whose numeric test is `!isNaN(value)`, a
`ToNumber`-based check). -/

/-- The predicate "the raw string parses fully as a float": the whole string is one
signed decimal float literal (no surrounding whitespace, no radix
prefixes, not an infinity). -/
def specFullFloat (s : String) : Option ℚ :=
  match parseSignedMain s.toList with
  | some (.fin q, []) => some q
  | _ => none

/-- The field mapping exactly as the claim words it: empty → null; else a
string that parses fully as a float → that float; else literal
`true`/`false` → boolean; else the raw string unchanged. -/
def specCoerceField (value : String) : JSValue :=
  if value = "" then .null
  else
    match specFullFloat value with
    | some q => .num (.fin q)
    | none =>
      if value = "true" then .bool true
      else if value = "false" then .bool false
      else .str value

/-! ## Bridging lemmas for the number model -/

theorem numAdd_fin (a b : ℚ) : numAdd (.fin a) (.fin b) = .fin (a + b) := by
  show JSNumber.fin (mkRat (a.num * b.den + b.num * a.den) (a.den * b.den)) =
    JSNumber.fin (a + b)
  rw [Rat.add_def']

theorem numSub_fin (a b : ℚ) : numSub (.fin a) (.fin b) = .fin (a - b) := by
  show numAdd (.fin a) (.fin (-b)) = JSNumber.fin (a - b)
  rw [numAdd_fin, ← sub_eq_add_neg]

theorem numAbs_fin (q : ℚ) : numAbs (.fin q) = .fin |q| := by
  show JSNumber.fin (if q < 0 then -q else q) = JSNumber.fin |q|
  by_cases h : q < 0
  · rw [if_pos h, abs_of_neg h]
  · rw [if_neg h, abs_of_nonneg (le_of_not_lt h)]

theorem numGt_fin (a b : ℚ) : numGt (.fin a) (.fin b) = decide (b < a) := rfl

theorem mkRat_centi : (mkRat 1 100 : ℚ) = 1 / 100 := by
  rw [Rat.mkRat_eq_div]; norm_num

/-! ## Evaluation of the goal handler pipeline -/

theorem goalTotal_eval (fields : List (String × String)) (q1 q2 q3 q4 : ℚ)
    (h1 : objGet (formDataToObject fields) "stock_allocation" = .num (.fin q1))
    (h2 : objGet (formDataToObject fields) "bond_allocation" = .num (.fin q2))
    (h3 : objGet (formDataToObject fields) "etf_allocation" = .num (.fin q3))
    (h4 : objGet (formDataToObject fields) "deposit_allocation" = .num (.fin q4)) :
    goalTotal fields = .num (.fin (q1 + q2 + q3 + q4)) := by
  simp [goalTotal, h1, h2, h3, h4, jsAdd, JSValue.isStr, toNumber, numAdd_fin]

/-- An allocation value that is either null (an empty form field, pinning
its contribution to 0) or a finite number is not a string and
Number-coerces to its contribution. -/
theorem allocField_eval (v : JSValue) (q : ℚ)
    (h : v = .null ∧ q = 0 ∨ v = .num (.fin q)) :
    v.isStr = false ∧ toNumber v = .fin q := by
  rcases h with ⟨rfl, rfl⟩ | rfl
  · exact ⟨rfl, rfl⟩
  · exact ⟨rfl, rfl⟩

/-- JS `+` on two non-string operands whose Number coercions are the
finite values `x` and `y` is the finite number `x + y`. -/
theorem jsAdd_eval (a b : JSValue) (x y : ℚ) (ha : a.isStr = false) (hb : b.isStr = false)
    (hta : toNumber a = .fin x) (htb : toNumber b = .fin y) :
    jsAdd a b = .num (.fin (x + y)) := by
  simp [jsAdd, ha, hb, hta, htb, numAdd_fin]

/-- The allocation total when each of the four fields is either null
(contributing 0) or a finite number. -/
theorem goalTotal_eval_mixed (fields : List (String × String)) (q1 q2 q3 q4 : ℚ)
    (h1 : objGet (formDataToObject fields) "stock_allocation" = .null ∧ q1 = 0 ∨
      objGet (formDataToObject fields) "stock_allocation" = .num (.fin q1))
    (h2 : objGet (formDataToObject fields) "bond_allocation" = .null ∧ q2 = 0 ∨
      objGet (formDataToObject fields) "bond_allocation" = .num (.fin q2))
    (h3 : objGet (formDataToObject fields) "etf_allocation" = .null ∧ q3 = 0 ∨
      objGet (formDataToObject fields) "etf_allocation" = .num (.fin q3))
    (h4 : objGet (formDataToObject fields) "deposit_allocation" = .null ∧ q4 = 0 ∨
      objGet (formDataToObject fields) "deposit_allocation" = .num (.fin q4)) :
    goalTotal fields = .num (.fin (q1 + q2 + q3 + q4)) := by
  obtain ⟨hs1, ht1⟩ := allocField_eval _ q1 h1
  obtain ⟨hs2, ht2⟩ := allocField_eval _ q2 h2
  obtain ⟨hs3, ht3⟩ := allocField_eval _ q3 h3
  obtain ⟨hs4, ht4⟩ := allocField_eval _ q4 h4
  show jsAdd (jsAdd (jsAdd (objGet (formDataToObject fields) "stock_allocation")
      (objGet (formDataToObject fields) "bond_allocation"))
      (objGet (formDataToObject fields) "etf_allocation"))
    (objGet (formDataToObject fields) "deposit_allocation") = .num (.fin (q1 + q2 + q3 + q4))
  rw [jsAdd_eval _ _ q1 q2 hs1 hs2 ht1 ht2,
    jsAdd_eval (JSValue.num (JSNumber.fin (q1 + q2)))
      (objGet (formDataToObject fields) "etf_allocation") (q1 + q2) q3 rfl hs3 rfl ht3,
    jsAdd_eval (JSValue.num (JSNumber.fin (q1 + q2 + q3)))
      (objGet (formDataToObject fields) "deposit_allocation") (q1 + q2 + q3) q4 rfl hs4
      rfl ht4]

theorem goalValidationFails_eval (fields : List (String × String)) (t : ℚ)
    (ht : goalTotal fields = .num (.fin t)) :
    goalValidationFails fields = decide (1 / 100 < |t - 100|) := by
  simp only [goalValidationFails, ht, toNumber, numSub_fin, numAbs_fin, numGt_fin, mkRat_centi]

theorem handleGoal_of_fails (fields : List (String × String)) (outcome : FetchOutcome)
    (h : goalValidationFails fields = true) :
    handleGoal fields outcome = (.validationError (goalErrMsg (goalTotal fields)), none) := by
  simp [handleGoal, h]

theorem handleGoal_of_passes (fields : List (String × String)) (outcome : FetchOutcome)
    (h : goalValidationFails fields = false) :
    (handleGoal fields outcome).2 = some "/financial-goal" ∧
      ∀ m, (handleGoal fields outcome).1 ≠ .validationError m := by
  constructor
  · simp only [handleGoal, h, if_false, Bool.false_eq_true]
    cases callModel "/financial-goal" (some (formDataToObject fields)) "POST" outcome <;> rfl
  · intro m
    simp only [handleGoal, h, if_false, Bool.false_eq_true]
    cases callModel "/financial-goal" (some (formDataToObject fields)) "POST" outcome <;> simp

/-! ## Claim theorems -/

/-- Claim C9 (confirmed): the numeric test of `formDataToObject`
(`!isNaN(value)`, i.e. `ToNumber`) and its conversion (`parseFloat`)
disagree: the whitespace-only field value `" "` passes the numeric test yet
converts to NaN, and `"0x10"` (which `ToNumber` reads as 16) converts to
`0`, not 16 and not the raw string. -/
theorem c9_numeric_mismatch :
    (jsStringToNumber " ").isNaN = false ∧ coerceField " " = .num .nan ∧
    jsStringToNumber "0x10" = .fin 16 ∧ coerceField "0x10" = .num (.fin 0) ∧
    JSValue.num (.fin 0) ≠ .num (.fin 16) ∧ JSValue.num (.fin 0) ≠ .str "0x10" ∧
    JSValue.num .nan ≠ .str " " := by
  decide

/-- Claim C5 (confirmed): a bond submission whose call ends in a 500
response with body `{"detail":"overloaded"}` leaves the `bond-result`
container showing exactly the message `overloaded` (the `showError`
template applied to that message and nothing else), and a 500 with an
unparsable body leaves it showing exactly `HTTP 500: Internal Server
Error`. -/
theorem c5_bond_error_display (fields : List (String × String)) (isCompoundChecked : Bool) :
    handleBond fields isCompoundChecked
        (.response ⟨500, "Internal Server Error", some (.jobj [("detail", .jstr "overloaded")])⟩) =
      showError "overloaded" ∧
    handleBond fields isCompoundChecked (.response ⟨500, "Internal Server Error", none⟩) =
      showError "HTTP 500: Internal Server Error" :=
  ⟨rfl, rfl⟩

/-- Claim C1, counterexample: with the bond tab active and both the
`bond-result` and `etf-result` containers holding content, clicking the
etf tab button leaves `bond-result` (the previous tab's container)
untouched and clears `etf-result` (the newly activated tab's container) —
the opposite of the claimed effect on both containers. -/
theorem c1_counterexample :
    (clickTab ⟨"bond", fun t => t == "bond",
        fun cid => if cid = "bond-result" then ⟨"<b>old bond</b>", true⟩
          else if cid = "etf-result" then ⟨"<b>old etf</b>", true⟩ else clearedPanel⟩
      "etf").results "bond-result" = ⟨"<b>old bond</b>", true⟩ ∧
    (clickTab ⟨"bond", fun t => t == "bond",
        fun cid => if cid = "bond-result" then ⟨"<b>old bond</b>", true⟩
          else if cid = "etf-result" then ⟨"<b>old etf</b>", true⟩ else clearedPanel⟩
      "etf").results "bond-result" ≠ clearedPanel ∧
    (clickTab ⟨"bond", fun t => t == "bond",
        fun cid => if cid = "bond-result" then ⟨"<b>old bond</b>", true⟩
          else if cid = "etf-result" then ⟨"<b>old etf</b>", true⟩ else clearedPanel⟩
      "etf").results "etf-result" = clearedPanel ∧
    (clickTab ⟨"bond", fun t => t == "bond",
        fun cid => if cid = "bond-result" then ⟨"<b>old bond</b>", true⟩
          else if cid = "etf-result" then ⟨"<b>old etf</b>", true⟩ else clearedPanel⟩
      "etf").results "etf-result" ≠
      (⟨"bond", fun t => t == "bond",
        fun cid => if cid = "bond-result" then ⟨"<b>old bond</b>", true⟩
          else if cid = "etf-result" then ⟨"<b>old etf</b>", true⟩ else clearedPanel⟩ :
        UIState).results "etf-result" := by
  refine ⟨by decide, by decide, by decide, by decide⟩

/-- Claim C1 as amended (proved): clicking the tab button for tab `b`
clears the result container of `b` itself (`b ++ "-result"`), leaves every
other result container — in particular the previously active tab's —
unchanged, and makes `b` the current tab. -/
theorem c1_tab_switch (s : UIState) (b cid : String) (h : cid ≠ b ++ "-result") :
    (clickTab s b).results (b ++ "-result") = clearedPanel ∧
    (clickTab s b).results cid = s.results cid ∧
    (clickTab s b).currentTab = b := by
  refine ⟨?_, ?_, rfl⟩
  · simp [clickTab, clearResult]
  · simp [clickTab, clearResult, h]

/-- Closed instance of `c1_tab_switch` at a concrete state and tabs. -/
theorem c1_tab_switch_witness :
    ("bond-result" ≠ "etf" ++ "-result") ∧
    ((clickTab ⟨"bond", fun t => t == "bond",
        fun cid => if cid = "bond-result" then ⟨"<b>old bond</b>", true⟩
          else if cid = "etf-result" then ⟨"<b>old etf</b>", true⟩ else clearedPanel⟩
      "etf").results ("etf" ++ "-result") = clearedPanel ∧
     (clickTab ⟨"bond", fun t => t == "bond",
        fun cid => if cid = "bond-result" then ⟨"<b>old bond</b>", true⟩
          else if cid = "etf-result" then ⟨"<b>old etf</b>", true⟩ else clearedPanel⟩
      "etf").results "bond-result" =
      (⟨"bond", fun t => t == "bond",
        fun cid => if cid = "bond-result" then ⟨"<b>old bond</b>", true⟩
          else if cid = "etf-result" then ⟨"<b>old etf</b>", true⟩ else clearedPanel⟩ :
        UIState).results "bond-result" ∧
     (clickTab ⟨"bond", fun t => t == "bond",
        fun cid => if cid = "bond-result" then ⟨"<b>old bond</b>", true⟩
          else if cid = "etf-result" then ⟨"<b>old etf</b>", true⟩ else clearedPanel⟩
      "etf").currentTab = "etf") :=
  ⟨by decide, c1_tab_switch _ "etf" "bond-result" (by decide)⟩

/-- Lemma: `validateFormData` is the in-order filter of the required fields by
the missing-value test, each rendered through the fixed message template. -/
theorem validateFormData_spec (data : String → JSValue) (req : List String) :
    validateFormData data req =
      (req.filter fun f => requiredMissing (data f)).map fun f => f ++ " 為必填欄位" := by
  have aux : ∀ (l : List String) (acc : List String),
      l.foldl
        (fun errors field =>
          if data field = .undefVal ∨ data field = .null ∨ data field = .str "" then
            errors ++ [field ++ " 為必填欄位"]
          else errors)
        acc =
      acc ++ (l.filter fun f => requiredMissing (data f)).map fun f => f ++ " 為必填欄位" := by
    intro l
    induction l with
    | nil => intro acc; simp
    | cons x xs ih =>
      intro acc
      simp only [List.foldl_cons, List.filter_cons]
      by_cases hx : data x = .undefVal ∨ data x = .null ∨ data x = .str ""
      · have hb : requiredMissing (data x) = true := decide_eq_true hx
        rw [if_pos hx, ih, hb]
        simp
      · have hb : requiredMissing (data x) = false := decide_eq_false hx
        rw [if_neg hx, ih, hb]
        simp
  simpa using aux req []

/-- Claim C8 (confirmed): `validateFormData` produces exactly one message
per required field whose value is undefined, null or the empty string, in
the order the required fields were given, each message being the field
name followed by the fixed required-field text; in particular
`{name: ""}` with `["name"]` yields exactly one error naming `name`, and
`{name: "x"}` yields none. -/
theorem c8_validate_form_data (data : String → JSValue) (req : List String) :
    validateFormData data req =
      ((req.filter fun f => requiredMissing (data f)).map fun f => f ++ " 為必填欄位") ∧
    validateFormData (fun f => if f = "name" then .str "" else .undefVal) ["name"] =
      ["name 為必填欄位"] ∧
    validateFormData (fun f => if f = "name" then .str "x" else .undefVal) ["name"] = [] :=
  ⟨validateFormData_spec data req, by decide, by decide⟩

/-- Claim C2 (confirmed): on a goal submission whose four allocation
fields coerce to the numbers `q1..q4`, the handler throws the allocation
validation error and never calls the API when the sum differs from 100 by
more than 0.01, and raises no validation error and calls `/financial-goal`
when the sum is within 0.01 of 100. -/
theorem c2_goal_allocation_check (fields : List (String × String)) (outcome : FetchOutcome)
    (q1 q2 q3 q4 : ℚ)
    (h1 : objGet (formDataToObject fields) "stock_allocation" = .num (.fin q1))
    (h2 : objGet (formDataToObject fields) "bond_allocation" = .num (.fin q2))
    (h3 : objGet (formDataToObject fields) "etf_allocation" = .num (.fin q3))
    (h4 : objGet (formDataToObject fields) "deposit_allocation" = .num (.fin q4)) :
    (1 / 100 < |q1 + q2 + q3 + q4 - 100| →
      handleGoal fields outcome = (.validationError (goalErrMsg (goalTotal fields)), none)) ∧
    (|q1 + q2 + q3 + q4 - 100| ≤ 1 / 100 →
      (handleGoal fields outcome).2 = some "/financial-goal" ∧
        ∀ m, (handleGoal fields outcome).1 ≠ .validationError m) := by
  have ht := goalTotal_eval fields q1 q2 q3 q4 h1 h2 h3 h4
  have hv := goalValidationFails_eval fields _ ht
  constructor
  · intro h
    exact handleGoal_of_fails fields outcome (by rw [hv]; exact decide_eq_true h)
  · intro h
    exact handleGoal_of_passes fields outcome
      (by rw [hv]; exact decide_eq_false (not_lt.mpr h))

/-- Closed instance of `c2_goal_allocation_check`: allocations
`40/30/20/9` (sum 99) throw the validation error without calling the API;
allocations `40/30/20/10.005` (sum 100.005, within the 0.01 tolerance)
reach the `/financial-goal` call. -/
theorem c2_goal_allocation_check_witness :
    objGet (formDataToObject [("stock_allocation", "40"), ("bond_allocation", "30"),
        ("etf_allocation", "20"), ("deposit_allocation", "9")]) "stock_allocation" =
      .num (.fin 40) ∧
    handleGoal [("stock_allocation", "40"), ("bond_allocation", "30"),
        ("etf_allocation", "20"), ("deposit_allocation", "9")] (.networkError "boom") =
      (.validationError (goalErrMsg (goalTotal [("stock_allocation", "40"),
        ("bond_allocation", "30"), ("etf_allocation", "20"), ("deposit_allocation", "9")])),
        none) ∧
    ((handleGoal [("stock_allocation", "40"), ("bond_allocation", "30"),
        ("etf_allocation", "20"), ("deposit_allocation", "10.005")] (.networkError "boom")).2 =
      some "/financial-goal" ∧
      ∀ m, (handleGoal [("stock_allocation", "40"), ("bond_allocation", "30"),
        ("etf_allocation", "20"), ("deposit_allocation", "10.005")]
          (.networkError "boom")).1 ≠ .validationError m) :=
  ⟨by decide,
   (c2_goal_allocation_check _ _ 40 30 20 9
      (by decide) (by decide) (by decide) (by decide)).1
     (by rw [show (40 : ℚ) + 30 + 20 + 9 - 100 = -1 by norm_num, abs_neg, abs_one]; norm_num),
   (c2_goal_allocation_check _ _ 40 30 20 (mkRat 2001 200)
      (by decide) (by decide) (by decide) (by decide)).2
     (by rw [Rat.mkRat_eq_div, abs_le]; constructor <;> norm_num)⟩

/-- Claim C10, counterexample: with the stock allocation field empty and
the remaining allocations `30/20/10`, the coerced null is added as 0, so
the total is the finite number 60 — not NaN — the tolerance check fires,
the validation error is thrown, and no API call is made, contrary to the
claimed silent pass-through. -/
theorem c10_counterexample :
    toNumber (goalTotal [("stock_allocation", ""), ("bond_allocation", "30"),
        ("etf_allocation", "20"), ("deposit_allocation", "10")]) = .fin 60 ∧
    JSNumber.fin 60 ≠ .nan ∧
    handleGoal [("stock_allocation", ""), ("bond_allocation", "30"),
        ("etf_allocation", "20"), ("deposit_allocation", "10")] (.networkError "boom") =
      (.validationError (goalErrMsg (goalTotal [("stock_allocation", ""),
        ("bond_allocation", "30"), ("etf_allocation", "20"), ("deposit_allocation", "10")])),
        none) ∧
    (handleGoal [("stock_allocation", ""), ("bond_allocation", "30"),
        ("etf_allocation", "20"), ("deposit_allocation", "10")] (.networkError "boom")).2 =
      none :=
  ⟨by decide, by decide, rfl, rfl⟩

/-- Claim C10 as amended (proved): when any of the four allocation fields
are empty, each empty one coerces to null, which JS addition treats as 0,
so the total is the finite sum of the numeric allocations — never NaN;
the validation error fires exactly when that partial sum is more than
0.01 away from 100, and when it is within tolerance the API call proceeds
despite the incomplete allocation.  Each field is hypothesised to be
either null (an empty field, contributing 0) or a finite number, with at
least one of the four null. -/
theorem c10_empty_allocation (fields : List (String × String)) (outcome : FetchOutcome)
    (q1 q2 q3 q4 : ℚ)
    (h1 : objGet (formDataToObject fields) "stock_allocation" = .null ∧ q1 = 0 ∨
      objGet (formDataToObject fields) "stock_allocation" = .num (.fin q1))
    (h2 : objGet (formDataToObject fields) "bond_allocation" = .null ∧ q2 = 0 ∨
      objGet (formDataToObject fields) "bond_allocation" = .num (.fin q2))
    (h3 : objGet (formDataToObject fields) "etf_allocation" = .null ∧ q3 = 0 ∨
      objGet (formDataToObject fields) "etf_allocation" = .num (.fin q3))
    (h4 : objGet (formDataToObject fields) "deposit_allocation" = .null ∧ q4 = 0 ∨
      objGet (formDataToObject fields) "deposit_allocation" = .num (.fin q4))
    (hempty : objGet (formDataToObject fields) "stock_allocation" = .null ∨
      objGet (formDataToObject fields) "bond_allocation" = .null ∨
      objGet (formDataToObject fields) "etf_allocation" = .null ∨
      objGet (formDataToObject fields) "deposit_allocation" = .null) :
    goalTotal fields = .num (.fin (q1 + q2 + q3 + q4)) ∧
    toNumber (goalTotal fields) ≠ .nan ∧
    (1 / 100 < |q1 + q2 + q3 + q4 - 100| →
      handleGoal fields outcome = (.validationError (goalErrMsg (goalTotal fields)), none)) ∧
    (|q1 + q2 + q3 + q4 - 100| ≤ 1 / 100 →
      (handleGoal fields outcome).2 = some "/financial-goal") := by
  have ht := goalTotal_eval_mixed fields q1 q2 q3 q4 h1 h2 h3 h4
  have hv := goalValidationFails_eval fields _ ht
  refine ⟨ht, ?_, ?_, ?_⟩
  · rw [ht]
    simp [toNumber]
  · intro h
    exact handleGoal_of_fails fields outcome (by rw [hv]; exact decide_eq_true h)
  · intro h
    exact (handleGoal_of_passes fields outcome
      (by rw [hv]; exact decide_eq_false (not_lt.mpr h))).1

/-- Closed instances of `c10_empty_allocation` at two different empty
positions: with the deposit field empty and `50/30/20` for the rest
(partial sum 100) the submission reaches the `/financial-goal` call, and
with the etf field empty and `40/30/10` for the rest (partial sum 80) the
validation error fires. -/
theorem c10_empty_allocation_witness :
    objGet (formDataToObject [("stock_allocation", "50"), ("bond_allocation", "30"),
        ("etf_allocation", "20"), ("deposit_allocation", "")]) "deposit_allocation" =
      .null ∧
    (handleGoal [("stock_allocation", "50"), ("bond_allocation", "30"),
        ("etf_allocation", "20"), ("deposit_allocation", "")] (.networkError "boom")).2 =
      some "/financial-goal" ∧
    objGet (formDataToObject [("stock_allocation", "40"), ("bond_allocation", "30"),
        ("etf_allocation", ""), ("deposit_allocation", "10")]) "etf_allocation" = .null ∧
    handleGoal [("stock_allocation", "40"), ("bond_allocation", "30"),
        ("etf_allocation", ""), ("deposit_allocation", "10")] (.networkError "boom") =
      (.validationError (goalErrMsg (goalTotal [("stock_allocation", "40"),
        ("bond_allocation", "30"), ("etf_allocation", ""), ("deposit_allocation", "10")])),
        none) :=
  ⟨by decide,
   (c10_empty_allocation _ _ 50 30 20 0
      (Or.inr (by decide)) (Or.inr (by decide)) (Or.inr (by decide))
      (Or.inl ⟨by decide, rfl⟩)
      (Or.inr (Or.inr (Or.inr (by decide))))).2.2.2
     (by rw [show (50 : ℚ) + 30 + 20 + 0 - 100 = 0 by norm_num, abs_zero]; norm_num),
   by decide,
   (c10_empty_allocation _ _ 40 30 0 10
      (Or.inr (by decide)) (Or.inr (by decide)) (Or.inl ⟨by decide, rfl⟩)
      (Or.inr (by decide))
      (Or.inr (Or.inr (Or.inl (by decide))))).2.2.1
     (by
        rw [show (40 : ℚ) + 30 + 0 + 10 - 100 = -20 by norm_num, abs_neg,
          show |(20 : ℚ)| = 20 from abs_of_nonneg (by norm_num)]
        norm_num)⟩

/-- Claim C4, counterexample: a 500 response whose body parses as JSON
with a `detail` field holding the empty string does not surface that
`detail` value — the `||` fallback treats the falsy empty string as
absent and the HTTP fallback message is thrown instead. -/
theorem c4_counterexample :
    detailOf (.jobj [("detail", .jstr "")]) = some (.jstr "") ∧
    callModel "/bond-deposit" (some ([] : List (String × JSValue))) "POST"
        (.response ⟨500, "Internal Server Error", some (.jobj [("detail", .jstr "")])⟩) =
      .error "HTTP 500: Internal Server Error" ∧
    ("HTTP 500: Internal Server Error" : String) ≠ "" :=
  ⟨rfl, rfl, by decide⟩

/-- Claim C4 as amended (proved): on a non-ok response the call fails with
a single error whose message is the body's `detail` string whenever the
body parses as JSON with a non-empty string `detail`; when the body is
unparsable, lacks a `detail` field, or its `detail` is null or the empty
string, the message is `HTTP <status>: <statusText>`; network-level
failures propagate as the same error kind with their own message. -/
theorem c4_call_error_paths {α : Type} (ep : String) (d : Option α) (meth : String)
    (r : Response) (j : JsonVal) (ds msg : String) :
    (r.ok = false → r.jsonBody = some j → detailOf j = some (.jstr ds) → ds ≠ "" →
      callModel ep d meth (.response r) = .error ds) ∧
    (r.ok = false → r.jsonBody = none →
      callModel ep d meth (.response r) = .error (httpFallback r.status r.statusText)) ∧
    (r.ok = false → r.jsonBody = some j →
      (detailOf j = none ∨ detailOf j = some .jnull ∨ detailOf j = some (.jstr "")) →
      callModel ep d meth (.response r) = .error (httpFallback r.status r.statusText)) ∧
    callModel ep d meth (.networkError msg) = .error msg := by
  refine ⟨?_, ?_, ?_, rfl⟩
  · intro hok hb hd hne
    simp [callModel, hok, errorMessage, hb, hd, jsonTruthy, hne, jsonMsgString]
  · intro hok hb
    simp [callModel, hok, errorMessage, hb]
  · intro hok hb hd
    rcases hd with hd | hd | hd <;> simp [callModel, hok, errorMessage, hb, hd, jsonTruthy]

/-- Closed instance of `c4_call_error_paths`: a 500 with body
`{"detail":"overloaded"}` throws `overloaded`, and a network failure is
rethrown with its own message. -/
theorem c4_call_error_paths_witness :
    Response.ok ⟨500, "Internal Server Error",
        some (.jobj [("detail", .jstr "overloaded")])⟩ = false ∧
    callModel "/bond-deposit" (some ([] : List (String × JSValue))) "POST"
        (.response ⟨500, "Internal Server Error",
          some (.jobj [("detail", .jstr "overloaded")])⟩) =
      .error "overloaded" ∧
    callModel "/bond-deposit" (some ([] : List (String × JSValue))) "POST"
        (.networkError "Failed to fetch") =
      .error "Failed to fetch" :=
  ⟨rfl,
   (c4_call_error_paths "/bond-deposit" (some []) "POST"
      ⟨500, "Internal Server Error", some (.jobj [("detail", .jstr "overloaded")])⟩
      (.jobj [("detail", .jstr "overloaded")]) "overloaded" "Failed to fetch").1
     rfl rfl rfl (by decide),
   (c4_call_error_paths "/bond-deposit" (some []) "POST"
      ⟨500, "Internal Server Error", some (.jobj [("detail", .jstr "overloaded")])⟩
      (.jobj [("detail", .jstr "overloaded")]) "overloaded" "Failed to fetch").2.2.2⟩

/-- Claim C7, counterexample: a 304 Not Modified response — a 3xx-class
response — is not `response.ok` (ok is 200–299 per the Fetch standard),
so even with a parseable JSON body the call throws the HTTP fallback
instead of returning the parsed body. -/
theorem c7_counterexample :
    Response.ok ⟨304, "Not Modified", some .jnull⟩ = false ∧
    callModel "/health" (none : Option (List (String × JSValue))) "GET"
        (.response ⟨304, "Not Modified", some .jnull⟩) =
      .error "HTTP 304: Not Modified" ∧
    Except.error "HTTP 304: Not Modified" ≠ (Except.ok JsonVal.jnull : Except String JsonVal) :=
  ⟨rfl, rfl, by simp⟩

/-- Claim C7 as amended (proved): on a 2xx (`response.ok`) response whose
body parses as JSON, the call returns exactly the parsed body. -/
theorem c7_call_ok {α : Type} (ep : String) (d : Option α) (meth : String)
    (r : Response) (j : JsonVal) (hok : r.ok = true) (hb : r.jsonBody = some j) :
    callModel ep d meth (.response r) = .ok j := by
  simp [callModel, hok, hb]

/-- Closed instance of `c7_call_ok` at a 200 response. -/
theorem c7_call_ok_witness :
    Response.ok ⟨200, "OK", some (.jobj [("status", .jstr "healthy")])⟩ = true ∧
    callModel "/health" (none : Option (List (String × JSValue))) "GET"
        (.response ⟨200, "OK", some (.jobj [("status", .jstr "healthy")])⟩) =
      .ok (.jobj [("status", .jstr "healthy")]) :=
  ⟨rfl, c7_call_ok "/health" none "GET" _ _ rfl rfl⟩

/-! ## Character-level facts about the number renderers

Every character a formatter emits for a number is a digit, a sign, a
separator, a currency or percent mark, or part of `NaN`/`Infinity`/`∞`;
none of these is `/`, while the string `N/A` contains one — which is how
the formatted branches are separated from the non-numeric branch. -/

theorem digitChar_ne_slash (n : ℕ) : digitChar n ≠ '/' := by
  unfold digitChar
  repeat' split
  all_goals decide

theorem natDigitsAux_ne_slash (fuel : ℕ) :
    ∀ (n : ℕ), ∀ c ∈ natDigitsAux fuel n, c ≠ '/' := by
  induction fuel with
  | zero => intro n c hc; simp [natDigitsAux] at hc
  | succ f ih =>
    intro n c hc
    unfold natDigitsAux at hc
    split at hc
    · simp at hc; subst hc; exact digitChar_ne_slash n
    · rw [List.mem_append] at hc
      rcases hc with hc | hc
      · exact ih _ c hc
      · simp at hc; subst hc; exact digitChar_ne_slash _

theorem natDigits_ne_slash (n : ℕ) : ∀ c ∈ natDigits n, c ≠ '/' :=
  fun c hc => natDigitsAux_ne_slash (n + 1) n c hc

theorem group3Rev_mem (l : List Char) :
    ∀ (k : ℕ) (c : Char), c ∈ group3Rev l k → c ∈ l ∨ c = ',' := by
  induction l with
  | nil => intro k c hc; simp [group3Rev] at hc
  | cons x xs ih =>
    intro k c hc
    unfold group3Rev at hc
    split at hc
    · simp at hc; subst hc; exact Or.inl (List.mem_cons_self _ _)
    · split at hc
      · simp only [List.mem_cons] at hc
        rcases hc with rfl | rfl | hc
        · exact Or.inl (by simp)
        · exact Or.inr rfl
        · rcases ih 0 c hc with h | h
          · exact Or.inl (List.mem_cons_of_mem _ h)
          · exact Or.inr h
      · simp only [List.mem_cons] at hc
        rcases hc with rfl | hc
        · exact Or.inl (by simp)
        · rcases ih (k + 1) c hc with h | h
          · exact Or.inl (List.mem_cons_of_mem _ h)
          · exact Or.inr h

theorem groupedNat_ne_slash (n : ℕ) : ∀ c ∈ groupedNat n, c ≠ '/' := by
  intro c hc
  unfold groupedNat at hc
  rw [List.mem_reverse] at hc
  rcases group3Rev_mem _ _ _ hc with h | h
  · rw [List.mem_reverse] at h
    exact natDigits_ne_slash n c h
  · subst h; decide

theorem fixedChars_ne_slash (m p : ℕ) (g : Bool) : ∀ c ∈ fixedChars m p g, c ≠ '/' := by
  intro c hc
  simp only [fixedChars] at hc
  rw [List.mem_append] at hc
  rcases hc with hc | hc
  · split at hc
    · exact groupedNat_ne_slash _ c hc
    · exact natDigits_ne_slash _ c hc
  · split at hc
    · simp at hc
    · simp only [List.mem_cons] at hc
      rcases hc with rfl | hc
      · decide
      · rw [List.mem_append] at hc
        rcases hc with hc | hc
        · rw [List.mem_replicate] at hc; rw [hc.2]; decide
        · exact natDigits_ne_slash _ c hc

theorem toFixedChars_ne_slash (n : JSNumber) (d : ℕ) :
    ∀ c ∈ toFixedChars n d, c ≠ '/' := by
  intro c hc
  cases n with
  | nan =>
    have hall : ∀ x ∈ ['N', 'a', 'N'], x ≠ '/' := by decide
    exact hall c hc
  | inf =>
    have hall : ∀ x ∈ "Infinity".toList, x ≠ '/' := by decide
    exact hall c hc
  | negInf =>
    have hall : ∀ x ∈ '-' :: "Infinity".toList, x ≠ '/' := by decide
    exact hall c hc
  | fin q =>
    simp only [toFixedChars] at hc
    rw [List.mem_append] at hc
    rcases hc with hc | hc
    · split at hc
      · simp at hc; subst hc; decide
      · simp at hc
    · exact fixedChars_ne_slash _ _ _ c hc

theorem mk_ne_NA (l : List Char) (h : ∀ c ∈ l, c ≠ '/') : String.mk l ≠ "N/A" := by
  intro he
  have hd : l = "N/A".data := congrArg String.data he
  have hmem : ('/' : Char) ∈ l := by rw [hd]; decide
  exact h _ hmem rfl

/-- Claim C6 (confirmed): `formatCurrency`, `formatPercentage` and
`formatNumber` return `"N/A"` exactly on the non-number inputs: every
value that is not a number yields `"N/A"` from all three, and every
number value yields a formatted string that is never `"N/A"`. -/
theorem c6_formatters_na (v : JSValue) (d e : ℕ) :
    ((∀ n, v ≠ .num n) →
      formatCurrency v = "N/A" ∧ formatPercentage v d = "N/A" ∧ formatNumber v e = "N/A") ∧
    (∀ n, v = .num n →
      formatCurrency v ≠ "N/A" ∧ formatPercentage v d ≠ "N/A" ∧ formatNumber v e ≠ "N/A") := by
  constructor
  · intro h
    cases v with
    | num n => exact absurd rfl (h n)
    | undefVal => exact ⟨rfl, rfl, rfl⟩
    | null => exact ⟨rfl, rfl, rfl⟩
    | bool b => exact ⟨rfl, rfl, rfl⟩
    | str s => exact ⟨rfl, rfl, rfl⟩
    | object => exact ⟨rfl, rfl, rfl⟩
  · rintro n rfl
    refine ⟨?_, ?_, ?_⟩
    · cases n with
      | nan => exact mk_ne_NA _ (by decide)
      | inf => exact mk_ne_NA _ (by decide)
      | negInf => exact mk_ne_NA _ (by decide)
      | fin q =>
        simp only [formatCurrency]
        apply mk_ne_NA
        intro c hc
        rw [List.mem_append] at hc
        rcases hc with hc | hc
        · split at hc
          · simp at hc; subst hc; decide
          · simp at hc
        · simp only [List.mem_cons] at hc
          rcases hc with rfl | hc
          · decide
          · exact groupedNat_ne_slash _ c hc
    · show String.mk (toFixedChars n d ++ ['%']) ≠ "N/A"
      apply mk_ne_NA
      intro c hc
      rw [List.mem_append] at hc
      rcases hc with hc | hc
      · exact toFixedChars_ne_slash n d c hc
      · simp at hc; subst hc; decide
    · cases n with
      | nan => exact mk_ne_NA _ (by decide)
      | inf => exact mk_ne_NA _ (by decide)
      | negInf => exact mk_ne_NA _ (by decide)
      | fin q =>
        simp only [formatNumber]
        apply mk_ne_NA
        intro c hc
        rw [List.mem_append] at hc
        rcases hc with hc | hc
        · split at hc
          · simp at hc; subst hc; decide
          · simp at hc
        · exact fixedChars_ne_slash _ _ _ c hc

/-- Closed instance of `c6_formatters_na` at a string input and a numeric
input. -/
theorem c6_formatters_na_witness :
    (formatCurrency (.str "abc") = "N/A" ∧ formatPercentage (.str "abc") 2 = "N/A" ∧
      formatNumber (.str "abc") 0 = "N/A") ∧
    (formatCurrency (.num (.fin 5)) ≠ "N/A" ∧ formatPercentage (.num (.fin 5)) 2 ≠ "N/A" ∧
      formatNumber (.num (.fin 5)) 0 ≠ "N/A") :=
  ⟨(c6_formatters_na (.str "abc") 2 0).1 (fun n h => JSValue.noConfusion h),
   (c6_formatters_na (.num (.fin 5)) 2 0).2 (.fin 5) rfl⟩

/-! ## Agreement of the coercion predicate and conversion on full float
literals

When a raw string is, in its entirety, one signed decimal float literal,
the `ToNumber`-based test of `formDataToObject` accepts it and
`parseFloat` converts it to exactly the denoted value.  (The two diverge
on strings such as `" "` and `"0x10"`; see the C3 counterexample and C9.) -/

theorem parseDecimal_head (cs : List Char) (p : ℚ × List Char)
    (h : parseDecimal cs = some p) :
    ∃ c t, cs = c :: t ∧ (isDecDigit c = true ∨ c = '.') := by
  cases cs with
  | nil => simp [parseDecimal] at h
  | cons c t =>
    refine ⟨c, t, rfl, ?_⟩
    by_cases hd : isDecDigit c = true
    · exact Or.inl hd
    · right
      by_cases hdot : c = '.'
      · exact hdot
      · exfalso
        have hnd : isDecDigit c = false := by
          cases hcb : isDecDigit c
          · rfl
          · exact absurd hcb hd
        simp [parseDecimal, List.takeWhile_cons, List.dropWhile_cons, hnd, hdot] at h

theorem parseSignedMain_fin_head (cs : List Char) (q : ℚ) (r : List Char)
    (h : parseSignedMain cs = some (.fin q, r)) :
    ∃ c t, cs = c :: t ∧ (c = '+' ∨ c = '-' ∨ isDecDigit c = true ∨ c = '.') := by
  cases cs with
  | nil =>
    rw [show parseSignedMain [] = none from rfl] at h
    exact Option.noConfusion h
  | cons c t =>
    refine ⟨c, t, rfl, ?_⟩
    by_cases hp : c = '+'
    · exact Or.inl hp
    by_cases hm : c = '-'
    · exact Or.inr (Or.inl hm)
    by_cases hd : isDecDigit c = true
    · exact Or.inr (Or.inr (Or.inl hd))
    by_cases hdot : c = '.'
    · exact Or.inr (Or.inr (Or.inr hdot))
    exfalso
    by_cases hinf : listStartsWith "Infinity".toList (c :: t) = true
    · have hinf3 : listStartsWith ['I', 'n', 'f', 'i', 'n', 'i', 't', 'y'] (c :: t) = true :=
        hinf
      simp [parseSignedMain, hp, hm, hinf3] at h
    · have hinf2 : listStartsWith "Infinity".toList (c :: t) = false := by
        cases hb : listStartsWith "Infinity".toList (c :: t)
        · rfl
        · exact absurd hb hinf
      cases hpd : parseDecimal (c :: t) with
      | none => simp [parseSignedMain, hp, hm, hinf2, hpd] at h
      | some pr =>
        obtain ⟨c2, t2, heq, hhead⟩ := parseDecimal_head _ _ hpd
        have hc2 : c2 = c := by
          injection heq with h1 h2
          exact h1.symm
        rw [hc2] at hhead
        rcases hhead with hh | hh
        · exact hd hh
        · exact hdot hh

theorem head_not_ws (c : Char)
    (h : c = '+' ∨ c = '-' ∨ isDecDigit c = true ∨ c = '.') :
    isJsWhitespace c = false := by
  rcases h with rfl | h
  · decide
  rcases h with rfl | h
  · decide
  rcases h with h | rfl
  · have hle : 48 ≤ c.toNat ∧ c.toNat ≤ 57 := by simpa [isDecDigit] using h
    simp only [isJsWhitespace, Bool.or_eq_false_iff, decide_eq_false_iff_not]
    omega
  · decide

theorem parseSignedMain_zero_nondec (c1 : Char) (r : List Char) (q : ℚ)
    (h1 : isDecDigit c1 = false) (h2 : c1 ≠ '.') (h3 : c1 ≠ 'e') (h4 : c1 ≠ 'E')
    (h : parseSignedMain ('0' :: c1 :: r) = some (.fin q, [])) : False := by
  have hIl : "Infinity".toList = ['I', 'n', 'f', 'i', 'n', 'i', 't', 'y'] := rfl
  have hd0 : isDecDigit '0' = true := by decide
  simp [parseSignedMain, parseDecimal, listStartsWith, hIl, h1, h2, h3, h4, hd0,
    List.takeWhile_cons, List.dropWhile_cons] at h

theorem radixParse_none (cs : List Char) (q : ℚ)
    (hp : parseSignedMain cs = some (.fin q, [])) : radixParse cs = none := by
  cases cs with
  | nil => rfl
  | cons c0 t0 =>
    cases t0 with
    | nil => rfl
    | cons c1 r =>
      by_cases hx : c0 = '0' ∧ (c1 = 'x' ∨ c1 = 'X')
      · exfalso
        obtain ⟨rfl, hc⟩ := hx
        rcases hc with rfl | rfl
        · exact parseSignedMain_zero_nondec _ r q (by decide) (by decide) (by decide)
            (by decide) hp
        · exact parseSignedMain_zero_nondec _ r q (by decide) (by decide) (by decide)
            (by decide) hp
      · by_cases ho : c0 = '0' ∧ (c1 = 'o' ∨ c1 = 'O')
        · exfalso
          obtain ⟨rfl, hc⟩ := ho
          rcases hc with rfl | rfl
          · exact parseSignedMain_zero_nondec _ r q (by decide) (by decide) (by decide)
              (by decide) hp
          · exact parseSignedMain_zero_nondec _ r q (by decide) (by decide) (by decide)
              (by decide) hp
        · by_cases hb : c0 = '0' ∧ (c1 = 'b' ∨ c1 = 'B')
          · exfalso
            obtain ⟨rfl, hc⟩ := hb
            rcases hc with rfl | rfl
            · exact parseSignedMain_zero_nondec _ r q (by decide) (by decide) (by decide)
                (by decide) hp
            · exact parseSignedMain_zero_nondec _ r q (by decide) (by decide) (by decide)
                (by decide) hp
          · simp [radixParse, hx, ho, hb]

theorem fullFloat_agrees (s : String) (q : ℚ) (h : specFullFloat s = some q) :
    jsStringToNumber s = .fin q ∧ parseFloatJS s = .fin q := by
  have hp : parseSignedMain s.toList = some (.fin q, []) := by
    unfold specFullFloat at h
    split at h <;> simp_all
  obtain ⟨c, t, hcs, hhead⟩ := parseSignedMain_fin_head _ _ _ hp
  have hws : isJsWhitespace c = false := head_not_ws c hhead
  have hdw : s.toList.dropWhile isJsWhitespace = c :: t := by
    rw [hcs]
    simp [List.dropWhile_cons, hws]
  rw [hcs] at hp
  have hdw2 : s.data.dropWhile isJsWhitespace = c :: t := hdw
  constructor
  · simp [jsStringToNumber, String.toList, hdw2, radixParse_none (c :: t) q hp, hp]
  · simp [parseFloatJS, String.toList, hdw2, hp]

/-- Claim C3, counterexample: the claimed mapping rule (numeric branch
guarded by "parses fully as a float") disagrees with the code on the
whitespace-only value `" "` (code: NaN number; rule: the raw string) and
on `"0x10"` (code: the number 0; rule: the raw string). -/
theorem c3_counterexample :
    specCoerceField " " = .str " " ∧ coerceField " " = .num .nan ∧
    JSValue.num .nan ≠ .str " " ∧
    specCoerceField "0x10" = .str "0x10" ∧ coerceField "0x10" = .num (.fin 0) ∧
    JSValue.num (.fin 0) ≠ .str "0x10" := by
  decide

/-- Claim C3 as amended (proved): `formDataToObject` maps each field by:
empty string → null; else, when the raw string Number-coerces to a
non-NaN value, → `parseFloat` of it — which is the denoted float whenever
the string parses fully as a float literal, though the Number-based test
also admits strings such as `" "` and `"0x10"` that convert differently;
else literal `"true"`/`"false"` → boolean; else the raw string.  The
concrete example `{a: "", b: "3.5", c: "true", d: "hello"}` maps to
`{a: null, b: 3.5, c: true, d: "hello"}`. -/
theorem c3_form_coercion (v : String) (q : ℚ) :
    formDataToObject [("a", ""), ("b", "3.5"), ("c", "true"), ("d", "hello")] =
      [("a", .null), ("b", .num (.fin (mkRat 7 2))), ("c", .bool true),
        ("d", .str "hello")] ∧
    (specFullFloat v = some q → coerceField v = .num (.fin q)) ∧
    ((jsStringToNumber v).isNaN = true → v ≠ "" →
      coerceField v =
        if v = "true" then .bool true
        else if v = "false" then .bool false
        else .str v) := by
  refine ⟨by decide, ?_, ?_⟩
  · intro h
    obtain ⟨hnum, hpf⟩ := fullFloat_agrees v q h
    have hne : v ≠ "" := by
      intro he
      subst he
      rw [show specFullFloat "" = none from rfl] at h
      exact Option.noConfusion h
    simp [coerceField, hne, hnum, hpf, JSNumber.isNaN]
  · intro hnan hne
    simp [coerceField, hne, hnan]

/-- Closed instance of `c3_form_coercion`: `"3.5"` parses fully as a
float and coerces to the number 3.5; `"hello"` Number-coerces to NaN and
stays the raw string. -/
theorem c3_form_coercion_witness :
    specFullFloat "3.5" = some (mkRat 7 2) ∧
    coerceField "3.5" = .num (.fin (mkRat 7 2)) ∧
    (jsStringToNumber "hello").isNaN = true ∧
    coerceField "hello" =
      (if "hello" = "true" then JSValue.bool true
       else if "hello" = "false" then JSValue.bool false
       else JSValue.str "hello") :=
  ⟨by decide, (c3_form_coercion "3.5" (mkRat 7 2)).2.1 (by decide), by decide,
   (c3_form_coercion "hello" 0).2.2 (by decide) (by decide)⟩

end Finbrain
